import Mathlib

/-!
Verification of the record-normalization and status-derivation core of
`src/main.py` (the "Atuação de Prospecção de Dados" app).

The Python functions `_s`, `_fmt_date`, `_to_datetime`,
`_calc_status_like_excel`, `normalize_segments`, `segments_to_str` and the
persistence pipelines `import_to_sf_append`, `_insert_record_main` and the
admin edit-save branch of `open_company_dialog` are embedded shallowly below.
Python string builtins (`strip`, `lower`, `split`) and the library calls
`unicodedata.normalize`/`pd.to_datetime`/`strftime` are external to the
repository; they are modelled by explicit Lean functions over `List Char`,
restricted (and documented, at each definition) to the character sets and
date formats this application actually exchanges.
-/

set_option maxRecDepth 4000

/-! ### Python string primitives, modelled over `List Char` -/

/-- Whitespace recognised by Python's `str.strip` (the subset that can occur
in spreadsheet/form text: space, tab, newline, carriage return, form feed,
vertical tab). -/
def isSpaceChar (c : Char) : Bool :=
  c = ' ' || c = '\t' || c = '\n' || c = '\r' || c = '\x0c' || c = '\x0b'

/-- Python `str.strip()`: drop leading and trailing whitespace. -/
def pyStrip (s : String) : String :=
  ⟨((s.data.dropWhile isSpaceChar).reverse.dropWhile isSpaceChar).reverse⟩

/-- Python `str.lower()` on one character, restricted to ASCII letters and the
accented Latin capitals that can occur in this app's data (Portuguese labels). -/
def pyLowerChar (c : Char) : Char :=
  if 'A' ≤ c && c ≤ 'Z' then Char.ofNat (c.toNat + 32)
  else match c with
    | 'Á' => 'á' | 'À' => 'à' | 'Â' => 'â' | 'Ã' => 'ã' | 'Ä' => 'ä'
    | 'É' => 'é' | 'Ê' => 'ê' | 'È' => 'è'
    | 'Í' => 'í' | 'Ì' => 'ì'
    | 'Ó' => 'ó' | 'Ô' => 'ô' | 'Õ' => 'õ' | 'Ö' => 'ö'
    | 'Ú' => 'ú' | 'Ù' => 'ù' | 'Ü' => 'ü'
    | 'Ç' => 'ç'
    | c => c

/-- Python `str.lower()`. -/
def pyLower (s : String) : String := ⟨s.data.map pyLowerChar⟩

/-- Unicode NFD decomposition followed by removal of nonspacing marks
(`unicodedata.normalize("NFD", s)` + dropping category `Mn`), restricted to
the lowercase Latin letters produced by `pyLower` on this app's data.  For
each covered character the NFD form is base letter + combining mark(s); the
result after dropping the marks is the base letter. -/
def deaccentChar (c : Char) : Char :=
  match c with
  | 'á' | 'à' | 'â' | 'ã' | 'ä' => 'a'
  | 'é' | 'ê' | 'è' => 'e'
  | 'í' | 'ì' => 'i'
  | 'ó' | 'ô' | 'õ' | 'ö' => 'o'
  | 'ú' | 'ù' | 'ü' => 'u'
  | 'ç' => 'c'
  | c => c

/-- Python `s.split(sep)` for a one-character separator: consecutive
separators produce empty fields, and the result is always nonempty. -/
def splitChar (sep : Char) : List Char → List (List Char)
  | [] => [[]]
  | c :: rest =>
    match splitChar sep rest with
    | [] => [[]]
    | cur :: done =>
      if c = sep then [] :: cur :: done else (c :: cur) :: done

/-- Python `s.split(sep)` at the `String` level. -/
def pySplit (sep : Char) (s : String) : List String :=
  (splitChar sep s.data).map fun l => ⟨l⟩

/-- Parse a nonempty all-digit character list as a natural number (the
numeric-field acceptor inside the date parsers). -/
def parseDigits (l : List Char) : Option Nat :=
  if l ≠ [] && l.all Char.isDigit then
    some (l.foldl (fun a c => a * 10 + (c.toNat - 48)) 0)
  else none

/-! ### Dates -/

/-- A calendar date as pandas/datetime hand it around in this program. -/
structure PDate where
  year : Nat
  month : Nat
  day : Nat
deriving DecidableEq

/-- Chronological comparison key: for calendar dates (month, day < 100) this
orders exactly like the pandas timestamps the source compares. -/
def PDate.key (d : PDate) : Nat := d.year * 10000 + d.month * 100 + d.day

def isLeapYear (y : Nat) : Bool :=
  (y % 4 = 0 && y % 100 ≠ 0) || y % 400 = 0

def daysInMonth (y m : Nat) : Nat :=
  if m = 2 then (if isLeapYear y then 29 else 28)
  else if m = 4 || m = 6 || m = 9 || m = 11 then 30
  else 31

def validDate (y m d : Nat) : Bool :=
  1 ≤ m && m ≤ 12 && 1 ≤ d && d ≤ daysInMonth y m && y ≤ 9999

/-- Acceptor for an "HH:MM:SS" time of day, for the ISO-like timestamps the app
stores (e.g. "2025-07-28 00:00:00"). -/
def validTimePart (l : List Char) : Bool :=
  match splitChar ':' l with
  | [h, m, s] =>
    match parseDigits h, parseDigits m, parseDigits s with
    | some hh, some mm, some ss => hh < 24 && mm < 60 && ss < 60
    | _, _, _ => false
  | _ => false

/-- Acceptor for the ISO date part "YYYY-MM-DD" (4-digit year). -/
def parseIsoDatePart (l : List Char) : Option PDate :=
  match splitChar '-' l with
  | [y, m, d] =>
    match parseDigits y, parseDigits m, parseDigits d with
    | some yy, some mm, some dd =>
      if y.length = 4 && validDate yy mm dd then some ⟨yy, mm, dd⟩ else none
    | _, _, _ => none
  | _ => none

/-- Model of `pd.to_datetime(s, errors="coerce", dayfirst=df)` restricted to
the two textual shapes this app exchanges: the slash form `A/B/YYYY`
(spreadsheet/form dates) and the ISO form `YYYY-MM-DD[ HH:MM:SS]` (stored
timestamps).  For the slash form pandas tries the interpretation selected by
`dayfirst` first and falls back to the swapped one when the preferred reading
is not a valid calendar date; ISO input ignores `dayfirst`.  Anything else
coerces to NaT (`none`); four-digit years only. -/
def pd_to_datetime (dayfirst : Bool) (s : String) : Option PDate :=
  match splitChar '/' s.data with
  | [a, b, y] =>
    match parseDigits a, parseDigits b, parseDigits y with
    | some na, some nb, some ny =>
      if y.length = 4 then
        if dayfirst then
          if validDate ny nb na then some ⟨ny, nb, na⟩
          else if validDate ny na nb then some ⟨ny, na, nb⟩
          else none
        else
          if validDate ny na nb then some ⟨ny, na, nb⟩
          else if validDate ny nb na then some ⟨ny, nb, na⟩
          else none
      else none
    | _, _, _ => none
  | _ =>
    match splitChar ' ' s.data with
    | [d] => parseIsoDatePart d
    | [d, t] => if validTimePart t then parseIsoDatePart d else none
    | _ => none

/-- Digit character for `n % 10` (strftime zero-padded fields). -/
def digCh (n : Nat) : Char := Char.ofNat (48 + n % 10)

def pad2 (n : Nat) : List Char := [digCh (n / 10), digCh n]

def pad4 (n : Nat) : List Char :=
  [digCh (n / 1000), digCh (n / 100), digCh (n / 10), digCh n]

/-- Model of `strftime("%d/%m/%Y")` for the calendar dates this app prints (day and
month below 100, year below 10000 — every date produced by the parsers). -/
def fmtDDMMYYYY (d : PDate) : String :=
  ⟨pad2 d.day ++ '/' :: pad2 d.month ++ '/' :: pad4 d.year⟩

/-- Model of `pd.to_datetime(x, format="%d/%m/%Y", errors="coerce")` (strict
format match, used by the import pipeline to turn display strings back into
dates): `D/M/YYYY` with numeric day/month and a 4-digit year. -/
def parse_ddmmyyyy (s : String) : Option PDate :=
  match splitChar '/' s.data with
  | [d, m, y] =>
    match parseDigits d, parseDigits m, parseDigits y with
    | some dd, some mm, some yy =>
      if y.length = 4 && validDate yy mm dd then some ⟨yy, mm, dd⟩ else none
    | _, _, _ => none
  | _ => none

/-! ### Segment canonicalization (src/main.py lines 130-176) -/

/-- Source `SEGMENT_OPTIONS` (line 131): the known segments, in declaration order;
`SEG_ORDER` is the index into this list. -/
def SEGMENT_OPTIONS : List String :=
  ["Fornecedor de Soluções", "Fornecedor de Dados",
   "Potenciais Novos Negócios", "Sem Segmento"]

/-- Source `SEG_CANON_MAP` (lines 132-139): alias table from folded spellings to
canonical labels. -/
def SEG_CANON_MAP : List (String × String) :=
  [("fornecedor de solucoes", "Fornecedor de Soluções"),
   ("fornecedor de soluções", "Fornecedor de Soluções"),
   ("fornecedor de dados", "Fornecedor de Dados"),
   ("potenciais novos negocios", "Potenciais Novos Negócios"),
   ("potenciais novos negócios", "Potenciais Novos Negócios"),
   ("sem segmento", "Sem Segmento")]

/-- Embeds `_deaccent_lower` (lines 141-145): strip, lowercase, then NFD-decompose
and drop nonspacing marks. -/
def _deaccent_lower (s : String) : String :=
  ⟨((pyStrip s).data.map pyLowerChar).map deaccentChar⟩

/-- The per-token body of the loop in `normalize_segments` (lines 157-170):
empty token → skipped; else look the folded token up in the alias table and,
failing that, fold-match it against the option labels (`find?` is the
`for`/`break` search); an unmatched token contributes nothing. -/
def canon_token (t : String) : Option String :=
  if t = "" then none
  else
    let key := _deaccent_lower t
    match SEG_CANON_MAP.lookup key with
    | some c => some c
    | none => SEGMENT_OPTIONS.find? fun opt => _deaccent_lower opt == key

/-- Models `sorted(set(l), key=lambda x: SEG_ORDER.get(x, 999))` (lines 171, 175).
Distinct known options have distinct keys, so on them the sort is exactly
declaration order and `set` dedup is membership; labels outside the options
all share key 999 and Python keeps them last in an unspecified (set-iteration)
relative order — every call site in the program passes known options only,
where this definition is exact. -/
def seg_sorted_dedup (l : List String) : List String :=
  (SEGMENT_OPTIONS.filter fun o => l.contains o) ++
    (l.filter fun x => !SEGMENT_OPTIONS.contains x).dedup

/-- Embeds `normalize_segments` (lines 149-172).  `None` and non-string cells reach
it as their `str()` image; the model takes `none` for Python `None` and the
string otherwise. -/
def normalize_segments (val : Option String) : List String :=
  match val with
  | none => ["Sem Segmento"]
  | some v =>
    let s := pyStrip v
    if s = "" || s = "-" || s = "nan" || s = "NaN" then ["Sem Segmento"]
    else
      let toks := (pySplit ',' s).map pyStrip
      let out := toks.filterMap canon_token
      let res := seg_sorted_dedup out
      if res = [] then ["Sem Segmento"] else res

/-- Embeds `segments_to_str` (lines 174-176). -/
def segments_to_str (segments : List String) : String :=
  String.intercalate ", " (seg_sorted_dedup segments)

/-! ### Text and date normalizers (src/main.py lines 217-261) -/

/-- Embeds `_s` (lines 217-223): display normalizer.  Python `None` is `none`;
any other value arrives as its `str()` image. -/
def _s (val : Option String) : String :=
  match val with
  | none => "-"
  | some v =>
    let s := pyStrip v
    if s = "" || pyLower s = "nan" || pyLower s = "nat" then "-" else s

/-- A value as `_fmt_date`/`_to_datetime` receive it: Python `None`, a native
`datetime`/`date`/`Timestamp`, or text.  (A pandas NaN cell stringifies to
"nan" and is caught by the sentinel checks, same as `vNone`.) -/
inductive Val where
  | vNone
  | vDate (d : PDate)
  | vStr (s : String)
deriving DecidableEq

/-- Embeds `_fmt_date` (lines 236-250): render for display.  A native date prints
as `%d/%m/%Y` (its `str()` is never blank or a sentinel, so the early
returns do not fire); text is stripped, sentinel-checked, then parsed with
`dayfirst=False`; if parsing coerces to NaT the function falls through to
`return _s(val)`. -/
def _fmt_date (val : Val) : String :=
  match val with
  | .vNone => "-"
  | .vDate d => fmtDDMMYYYY d
  | .vStr v =>
    let s := pyStrip v
    if s = "" || pyLower s = "nan" || pyLower s = "nat" || pyLower s = "-" then "-"
    else
      match pd_to_datetime false s with
      | some d => fmtDDMMYYYY d
      | none => _s (some v)

/-- Embeds `_to_datetime` (lines 252-261): the storage/compute parser.  A native
date round-trips through `str()` (ISO text) back to itself; text is stripped,
sentinel-checked, then parsed with `dayfirst=True`. -/
def _to_datetime (val : Val) : Option PDate :=
  match val with
  | .vNone => none
  | .vDate d => some d
  | .vStr v =>
    let s := pyStrip v
    if s = "" || pyLower s = "nan" || pyLower s = "nat" || pyLower s = "-" then none
    else pd_to_datetime true s

/-! ### Status derivation (src/main.py lines 263-276) -/

/-- The five status strings `_calc_status_like_excel` can return. -/
def STATUS_VALUES : List String :=
  ["EM NEGOCIAÇÃO", "EM VIGÊNCIA", "SOLICITAR RENOVAÇÃO", "ATRASADO", "-"]

/-- The decision list of `_calc_status_like_excel` (lines 268-276) on the
already-parsed dates `da`/`ir`/`vg`: `pd.isna` is `Option.isNone`,
`pd.notna x and x > today` is `Option.any`, and timestamp comparison is
comparison of `PDate.key`. -/
def calcStatusCore (today : PDate) (da ir vg : Option PDate) : String :=
  if da.isNone then "EM NEGOCIAÇÃO"
  else if ir.any fun i => today.key < i.key then "EM VIGÊNCIA"
  else if (ir.any fun i => i.key < today.key) && (vg.any fun v => today.key < v.key) then
    "SOLICITAR RENOVAÇÃO"
  else if vg.any fun v => v.key < today.key then "ATRASADO"
  else "-"

/-- Embeds `_calc_status_like_excel` (lines 263-276).  The source reads `today`
from `date.today()`; the embedding passes that ambient input explicitly. -/
def _calc_status_like_excel (today : PDate) (data_ass inicio_renov vigencia : Val) : String :=
  calcStatusCore today (_to_datetime data_ass) (_to_datetime inicio_renov)
    (_to_datetime vigencia)

/-! ### Persistence pipelines (status/date/segment projections)

The three write paths handle the 24 remaining columns uniformly through the
same non-date cleanup; the embeddings below carry exactly the fields the
claims are about — the raw `STATUS` cell / typed Status box, the three date
fields and `SEGMENTO` — and thread them through every step the source
applies to them, in source order. -/

/-- The non-date cleanup lambda of `import_to_sf_append` step 6 (line 314)
and `_insert_record_main` (lines 428-431):
`"-" if (v is None or str(v).strip() in {"", "nan", "NaN", "NaT"}) else str(v).strip()`. -/
def clean_non_date (v : Option String) : String :=
  match v with
  | none => "-"
  | some x =>
    let t := pyStrip x
    if t = "" || t = "nan" || t = "NaN" || t = "NaT" then "-" else t

/-- A date-typed dataframe cell (a `datetime.date` or `None`) as it is later
passed to `_calc_status_like_excel`. -/
def optToVal : Option PDate → Val
  | none => Val.vNone
  | some d => Val.vDate d

/-- Embeds `_date_sql` inside `_insert_record_main` (lines 435-439): `"-"`/empty →
NULL, else `pd.to_datetime(v, dayfirst=True, errors="coerce")`, NaT → NULL. -/
def date_sql_parse (v : String) : Option PDate :=
  if v = "-" || v = "" then none else pd_to_datetime true v

/-- The date branch of `_update_record` (lines 369-377): sentinel list →
NULL, else `pd.to_datetime(str(v), dayfirst=True, errors="coerce")`. -/
def update_date_parse (v : String) : Option PDate :=
  if v = "-" || v = "" || v = "nan" || v = "NaN" || v = "NaT" then none
  else pd_to_datetime true v

/-- The claim-relevant cells of one raw spreadsheet row (import path) or of
the string-keyed record handed to `_insert_record_main` (create path). -/
structure RowIn where
  status : Option String
  data_ass : Val
  inicio_renov : Val
  vigencia : Val
  segmento : Option String
deriving DecidableEq

/-- The claim-relevant fields of a persisted record: `STATUS` and `SEGMENTO`
as stored text, the three date columns as stored DATE-or-NULL. -/
structure StoredRow where
  status : String
  data_ass : Option PDate
  inicio_renov : Option PDate
  vigencia : Option PDate
  segmento : String
deriving DecidableEq

/-- Embeds `import_to_sf_append` (lines 281-337), claim-relevant projection, in
source order: step 3 turns each date column into `date`/None by re-parsing
`_fmt_date` output under the strict `%d/%m/%Y` format; step 4 overwrites
`STATUS` with `_calc_status_like_excel` of those date cells; step 5
canonicalizes `SEGMENTO`; step 6 applies the non-date cleanup to every
non-date column (`STATUS` and `SEGMENTO` included).  The raw `STATUS` cell
is never read. -/
def import_row (today : PDate) (r : RowIn) : StoredRow :=
  let da := parse_ddmmyyyy (_fmt_date r.data_ass)
  let ir := parse_ddmmyyyy (_fmt_date r.inicio_renov)
  let vg := parse_ddmmyyyy (_fmt_date r.vigencia)
  let st := _calc_status_like_excel today (optToVal da) (optToVal ir) (optToVal vg)
  let seg := segments_to_str (normalize_segments r.segmento)
  { status := clean_non_date (some st)
    data_ass := da
    inicio_renov := ir
    vigencia := vg
    segmento := clean_non_date (some seg) }

/-- The claim-relevant keys of the string-keyed `record` dict handed to
`_insert_record_main` by the create dialog (all values are strings there;
`none` models a missing key, which `record.get` turns into `None`). -/
structure RecordIn where
  status : Option String
  data_ass : Option String
  inicio_renov : Option String
  vigencia : Option String
  segmento : Option String
deriving DecidableEq

/-- Embeds `_insert_record_main` (lines 411-457), claim-relevant projection, in
source order: `row = {c: _s(record.get(c))}`, then each date field is
replaced by `_fmt_date` of that string, `STATUS` is overwritten with
`_calc_status_like_excel` of the three formatted strings, `SEGMENTO` is
re-canonicalized, the non-date columns are cleaned, and the date columns are
stored through `_date_sql`.  The incoming `STATUS` value (the dialog sends
`"-"`) is never read. -/
def insert_record (today : PDate) (r : RecordIn) : StoredRow :=
  let fd := _fmt_date (Val.vStr (_s r.data_ass))
  let fi := _fmt_date (Val.vStr (_s r.inicio_renov))
  let fv := _fmt_date (Val.vStr (_s r.vigencia))
  let st := _calc_status_like_excel today (Val.vStr fd) (Val.vStr fi) (Val.vStr fv)
  let seg := segments_to_str (normalize_segments (some (_s r.segmento)))
  { status := clean_non_date (some st)
    data_ass := date_sql_parse fd
    inicio_renov := date_sql_parse fi
    vigencia := date_sql_parse fv
    segmento := clean_non_date (some seg) }

/-- The widget values of the admin edit form that feed the save branch
(lines 556-597): the free-text Status box, the three date text inputs and
the segment multiselect (whose options are `SEGMENT_OPTIONS`). -/
structure EditForm where
  status_typed : String
  data_ass : String
  inicio_renov : String
  vigencia : String
  segmentos_ms : List String
deriving DecidableEq

/-- The save branch of `open_company_dialog` (lines 556-597): normalize the
three date texts with `_fmt_date`, derive `status_calc`, build `updates`
with `STATUS = status_calc` (the typed Status box is dropped) and
`SEGMENTO = segments_to_str(segmentos_ms)`; an empty multiselect aborts the
save (lines 593-595) before `_update_record` runs, which stores the date
columns through its own sentinel/`dayfirst=True` parse. -/
def edit_save (today : PDate) (f : EditForm) : Option StoredRow :=
  let dn := _fmt_date (Val.vStr f.data_ass)
  let rn := _fmt_date (Val.vStr f.inicio_renov)
  let vn := _fmt_date (Val.vStr f.vigencia)
  let status_calc := _calc_status_like_excel today (Val.vStr dn) (Val.vStr rn) (Val.vStr vn)
  if f.segmentos_ms = [] then none
  else some
    { status := status_calc
      data_ass := update_date_parse dn
      inicio_renov := update_date_parse rn
      vigencia := update_date_parse vn
      segmento := segments_to_str f.segmentos_ms }

/-! ### Classification normalizer (spec §4.4) -/

/-- The A/B/C classification codes. -/
inductive Code where
  | A
  | B
  | C
deriving DecidableEq

/-- Substring test (`p in s` for Python strings), over `List Char`. -/
def listContainsSub (needle : List Char) : List Char → Bool
  | [] => needle.isEmpty
  | c :: rest => needle.isPrefixOf (c :: rest) || listContainsSub needle rest

def strContains (hay needle : String) : Bool :=
  listContainsSub needle.data hay.data

/-- Modelled from the spec: the Classification Normalizer of §4.4
(`classificationToCode`) has no implementation under `src/` — it belongs to
a sibling variant of this app that is not included in the repository
snapshot.  Following the spec's words: strip and lowercase; if the first
character is already one of a/b/c return that code; otherwise match
case-insensitively against three fixed phrase sets in priority order A
before B before C (the phrases are the §4.4/§8 descriptions: A "supplies
data", B "no supply but offers a solution", C "potential new-business
partnership"); no match is `none` (unrecognized). -/
def A_PHRASES : List String := ["fornece dados"]

/-- Modelled from the spec (see `A_PHRASES`). -/
def B_PHRASES : List String := ["não fornece", "oferece solução"]

/-- Modelled from the spec (see `A_PHRASES`). -/
def C_PHRASES : List String := ["potencial", "novos negócios"]

/-- Modelled from the spec (see `A_PHRASES`): `classificationToCode`. -/
def classificationToCode (value : String) : Option Code :=
  let s := pyLower (pyStrip value)
  match s.data with
  | [] => none
  | c :: _ =>
    if c = 'a' then some Code.A
    else if c = 'b' then some Code.B
    else if c = 'c' then some Code.C
    else if A_PHRASES.any fun p => strContains s p then some Code.A
    else if B_PHRASES.any fun p => strContains s p then some Code.B
    else if C_PHRASES.any fun p => strContains s p then some Code.C
    else none

/-! ### Canonical segment lists and strings -/

/-- The canonical results of `normalize_segments`: the nonempty
order-preserving sublists of `SEGMENT_OPTIONS`. -/
def canonicalLists : List (List String) :=
  SEGMENT_OPTIONS.sublists.filter fun l => l ≠ []

/-- Their rendered (persisted) forms. -/
def canonicalStrs : List String := canonicalLists.map segments_to_str

/-! ### Helper lemmas: stripping and formatted strings -/

theorem pyStrip_eq_rdrop (s : String) :
    pyStrip s = ⟨List.rdropWhile isSpaceChar (s.data.dropWhile isSpaceChar)⟩ := rfl

theorem dropWhile_of_all_false {l : List Char}
    (h : ∀ c ∈ l, isSpaceChar c = false) : l.dropWhile isSpaceChar = l := by
  cases l with
  | nil => rfl
  | cons a t => rw [List.dropWhile_cons, h a (List.mem_cons_self a t)]; simp

theorem pyStrip_eq_self {s : String} (h : ∀ c ∈ s.data, isSpaceChar c = false) :
    pyStrip s = s := by
  rw [pyStrip_eq_rdrop, List.rdropWhile, dropWhile_of_all_false h,
    dropWhile_of_all_false (fun c hc => h c (List.mem_reverse.mp hc)),
    List.reverse_reverse]

theorem head_dropWhile_false :
    ∀ {l : List Char} {a : Char} {t : List Char},
      l.dropWhile isSpaceChar = a :: t → isSpaceChar a = false := by
  intro l
  induction l with
  | nil => intro a t h; cases h
  | cons b r ih =>
    intro a t h
    rw [List.dropWhile_cons] at h
    by_cases hb : isSpaceChar b = true
    · rw [if_pos hb] at h; exact ih h
    · rw [if_neg hb] at h; cases h; simpa using hb

theorem dropWhile_rdropWhile_dropWhile (l : List Char) :
    (List.rdropWhile isSpaceChar (l.dropWhile isSpaceChar)).dropWhile isSpaceChar
      = List.rdropWhile isSpaceChar (l.dropWhile isSpaceChar) := by
  cases h : List.rdropWhile isSpaceChar (l.dropWhile isSpaceChar) with
  | nil => rfl
  | cons a t =>
    have hpre : a :: t <+: l.dropWhile isSpaceChar := h ▸ List.rdropWhile_prefix _ _
    obtain ⟨r, hr⟩ := hpre
    have hm : l.dropWhile isSpaceChar = a :: (t ++ r) := by rw [← hr]; rfl
    have hpa : isSpaceChar a = false := head_dropWhile_false hm
    rw [List.dropWhile_cons, hpa]
    simp

theorem pyStrip_idem (s : String) : pyStrip (pyStrip s) = pyStrip s := by
  rw [pyStrip_eq_rdrop s, pyStrip_eq_rdrop, ← pyStrip_eq_rdrop s]
  show String.mk (List.rdropWhile isSpaceChar (List.dropWhile isSpaceChar
    (List.rdropWhile isSpaceChar (s.data.dropWhile isSpaceChar)))) = _
  rw [dropWhile_rdropWhile_dropWhile, List.rdropWhile_idempotent, pyStrip_eq_rdrop]

theorem digCh_not_space (n : Nat) : isSpaceChar (digCh n) = false := by
  unfold digCh
  have hlt : n % 10 < 10 := Nat.mod_lt _ (by norm_num)
  set k := n % 10 with hk
  interval_cases k <;> decide

theorem fmt_data (d : PDate) :
    (fmtDDMMYYYY d).data =
      [digCh (d.day / 10), digCh d.day, '/', digCh (d.month / 10), digCh d.month,
       '/', digCh (d.year / 1000), digCh (d.year / 100), digCh (d.year / 10),
       digCh d.year] := rfl

theorem pyStrip_fmt (d : PDate) : pyStrip (fmtDDMMYYYY d) = fmtDDMMYYYY d := by
  apply pyStrip_eq_self
  intro c hc
  rw [fmt_data] at hc
  simp only [List.mem_cons, List.not_mem_nil, or_false] at hc
  rcases hc with h | h | h | h | h | h | h | h | h | h <;> subst h <;>
    first
    | exact digCh_not_space _
    | decide

theorem fmt_length (d : PDate) : (fmtDDMMYYYY d).data.length = 10 := by
  rw [fmt_data]
  rfl

theorem ne_of_data_length {s t : String} (h : s.data.length ≠ t.data.length) :
    s ≠ t := fun he => h (by rw [he])

theorem pyLower_data (s : String) : (pyLower s).data = s.data.map pyLowerChar := rfl

theorem fmt_ne {d : PDate} {t : String} (h : t.data.length ≠ 10) :
    fmtDDMMYYYY d ≠ t := ne_of_data_length (by rw [fmt_length]; exact fun he => h he.symm)

theorem pyLower_fmt_ne {d : PDate} {t : String} (h : t.data.length ≠ 10) :
    pyLower (fmtDDMMYYYY d) ≠ t := by
  apply ne_of_data_length
  rw [pyLower_data, List.length_map, fmt_length]
  exact fun he => h he.symm

/-! ### Helper lemmas: the formatted date string reparses consistently -/

theorem fmt_date_reparse (s : String) :
    _to_datetime (Val.vStr (_fmt_date (Val.vStr s)))
        = date_sql_parse (_fmt_date (Val.vStr s))
    ∧ _to_datetime (Val.vStr (_fmt_date (Val.vStr s)))
        = update_date_parse (_fmt_date (Val.vStr s)) := by
  by_cases h1 : pyStrip s = ""
  · have hf : _fmt_date (Val.vStr s) = "-" := by simp [_fmt_date, h1]
    rw [hf]
    exact ⟨by decide, by decide⟩
  by_cases h2 : pyLower (pyStrip s) = "nan"
  · have hf : _fmt_date (Val.vStr s) = "-" := by simp [_fmt_date, h2]
    rw [hf]
    exact ⟨by decide, by decide⟩
  by_cases h3 : pyLower (pyStrip s) = "nat"
  · have hf : _fmt_date (Val.vStr s) = "-" := by simp [_fmt_date, h3]
    rw [hf]
    exact ⟨by decide, by decide⟩
  by_cases h4 : pyLower (pyStrip s) = "-"
  · have hf : _fmt_date (Val.vStr s) = "-" := by simp [_fmt_date, h4]
    rw [hf]
    exact ⟨by decide, by decide⟩
  cases hp : pd_to_datetime false (pyStrip s) with
  | some d =>
    have hf : _fmt_date (Val.vStr s) = fmtDDMMYYYY d := by
      simp [_fmt_date, h1, h2, h3, h4, hp]
    rw [hf]
    have e1 : _to_datetime (Val.vStr (fmtDDMMYYYY d))
        = pd_to_datetime true (fmtDDMMYYYY d) := by
      simp [_to_datetime, pyStrip_fmt, fmt_ne (d := d) (t := "") (by decide),
        pyLower_fmt_ne (d := d) (t := "nan") (by decide),
        pyLower_fmt_ne (d := d) (t := "nat") (by decide),
        pyLower_fmt_ne (d := d) (t := "-") (by decide)]
    have e2 : date_sql_parse (fmtDDMMYYYY d)
        = pd_to_datetime true (fmtDDMMYYYY d) := by
      simp [date_sql_parse, fmt_ne (d := d) (t := "-") (by decide),
        fmt_ne (d := d) (t := "") (by decide)]
    have e3 : update_date_parse (fmtDDMMYYYY d)
        = pd_to_datetime true (fmtDDMMYYYY d) := by
      simp [update_date_parse, fmt_ne (d := d) (t := "-") (by decide),
        fmt_ne (d := d) (t := "") (by decide),
        fmt_ne (d := d) (t := "nan") (by decide),
        fmt_ne (d := d) (t := "NaN") (by decide),
        fmt_ne (d := d) (t := "NaT") (by decide)]
    exact ⟨e1.trans e2.symm, e1.trans e3.symm⟩
  | none =>
    have hf : _fmt_date (Val.vStr s) = pyStrip s := by
      simp [_fmt_date, _s, h1, h2, h3, h4, hp]
    rw [hf]
    have hd : pyStrip s ≠ "-" := fun he => h4 (by rw [he]; decide)
    have hn1 : pyStrip s ≠ "nan" := fun he => h2 (by rw [he]; decide)
    have hn2 : pyStrip s ≠ "NaN" := fun he => h2 (by rw [he]; decide)
    have hn3 : pyStrip s ≠ "NaT" := fun he => h3 (by rw [he]; decide)
    have e1 : _to_datetime (Val.vStr (pyStrip s))
        = pd_to_datetime true (pyStrip s) := by
      simp [_to_datetime, pyStrip_idem, h1, h2, h3, h4]
    have e2 : date_sql_parse (pyStrip s) = pd_to_datetime true (pyStrip s) := by
      simp [date_sql_parse, hd, h1]
    have e3 : update_date_parse (pyStrip s) = pd_to_datetime true (pyStrip s) := by
      simp [update_date_parse, hd, h1, hn1, hn2, hn3]
    exact ⟨e1.trans e2.symm, e1.trans e3.symm⟩

/-! ### Helper lemmas: statuses and the non-date cleanup -/

theorem calcStatusCore_mem (today : PDate) (da ir vg : Option PDate) :
    calcStatusCore today da ir vg ∈ STATUS_VALUES := by
  unfold calcStatusCore
  split_ifs <;> simp [STATUS_VALUES]

theorem clean_status {st : String} (h : st ∈ STATUS_VALUES) :
    clean_non_date (some st) = st := by
  fin_cases h <;> decide

theorem to_datetime_optToVal (o : Option PDate) : _to_datetime (optToVal o) = o := by
  cases o <;> rfl

/-! ### Helper lemmas: segment canonicalization -/

theorem contains_iff_mem {a : String} {l : List String} :
    l.contains a = true ↔ a ∈ l :=
  ⟨fun h => List.mem_of_elem_eq_true h, fun h => List.elem_eq_true_of_mem h⟩

theorem mem_of_lookup_eq_some {l : List (String × String)} {k c : String}
    (h : l.lookup k = some c) : (k, c) ∈ l := by
  obtain ⟨l₁, l₂, rfl, -⟩ := List.lookup_eq_some_iff.mp h
  exact List.mem_append.mpr (Or.inr (List.mem_cons_self _ _))

theorem canon_token_mem {t c : String} (h : canon_token t = some c) :
    c ∈ SEGMENT_OPTIONS := by
  unfold canon_token at h
  by_cases ht : t = ""
  · rw [if_pos ht] at h
    cases h
  rw [if_neg ht] at h
  simp only [] at h
  cases hl : SEG_CANON_MAP.lookup (_deaccent_lower t) with
  | some c' =>
    rw [hl] at h
    cases h
    have hm := mem_of_lookup_eq_some hl
    simp only [SEG_CANON_MAP, List.mem_cons, List.not_mem_nil, or_false,
      Prod.mk.injEq] at hm
    rcases hm with ⟨-, h⟩ | ⟨-, h⟩ | ⟨-, h⟩ | ⟨-, h⟩ | ⟨-, h⟩ | ⟨-, h⟩ <;>
      subst h <;> decide
  | none =>
    rw [hl] at h
    exact List.mem_of_find?_eq_some h

theorem seg_sorted_dedup_eq_filter {l : List String}
    (h : ∀ c ∈ l, c ∈ SEGMENT_OPTIONS) :
    seg_sorted_dedup l = SEGMENT_OPTIONS.filter fun o => l.contains o := by
  unfold seg_sorted_dedup
  have hnil : (l.filter fun x => !SEGMENT_OPTIONS.contains x) = [] := by
    rw [List.filter_eq_nil_iff]
    intro a ha
    simp only [Bool.not_eq_true', Bool.not_eq_false]
    exact contains_iff_mem.mpr (h a ha)
  rw [hnil, List.dedup_nil, List.append_nil]

theorem normalize_segments_subset (v : String) :
    ∀ c ∈ ((pySplit ',' (pyStrip v)).map pyStrip).filterMap canon_token,
      c ∈ SEGMENT_OPTIONS := by
  intro c hc
  rw [List.mem_filterMap] at hc
  obtain ⟨t, -, ht⟩ := hc
  exact canon_token_mem ht

theorem normalize_segments_mem (x : Option String) :
    normalize_segments x ∈ canonicalLists := by
  match x with
  | none => decide
  | some v =>
    simp only [normalize_segments]
    split
    · decide
    · split
      · decide
      · rename_i hres
        rw [seg_sorted_dedup_eq_filter (normalize_segments_subset v)] at hres ⊢
        refine List.mem_filter.mpr ⟨List.mem_sublists.mpr (List.filter_sublist _), ?_⟩
        simpa using hres

theorem normalize_roundtrip :
    ∀ L ∈ canonicalLists, normalize_segments (some (segments_to_str L)) = L := by
  decide

theorem segments_to_str_mem_of_canonical {L : List String} (h : L ∈ canonicalLists) :
    segments_to_str L ∈ canonicalStrs :=
  List.mem_map_of_mem _ h

theorem clean_canonical {s : String} (h : s ∈ canonicalStrs) :
    clean_non_date (some s) = s := by
  fin_cases h <;> decide

theorem empty_not_canonical : "" ∉ canonicalStrs := by decide

theorem segments_to_str_canonical {ms : List String} (h1 : ms ≠ [])
    (h2 : ∀ a ∈ ms, a ∈ SEGMENT_OPTIONS) :
    segments_to_str ms ∈ canonicalStrs := by
  have hf : segments_to_str ms
      = String.intercalate ", " (SEGMENT_OPTIONS.filter fun o => ms.contains o) := by
    unfold segments_to_str
    rw [seg_sorted_dedup_eq_filter h2]
  have hce : ∃ a ∈ ms, a ∈ SEGMENT_OPTIONS := by
    obtain ⟨a, ha⟩ := List.exists_mem_of_ne_nil ms h1
    exact ⟨a, ha, h2 a ha⟩
  by_cases c1 : ms.contains "Fornecedor de Soluções" = true <;>
  by_cases c2 : ms.contains "Fornecedor de Dados" = true <;>
  by_cases c3 : ms.contains "Potenciais Novos Negócios" = true <;>
  by_cases c4 : ms.contains "Sem Segmento" = true <;>
  simp only [SEGMENT_OPTIONS, List.filter_cons, List.filter_nil, c1, c2, c3, c4,
    if_true, if_false, Bool.not_eq_true] at hf <;>
  rw [hf] <;>
  first
  | decide
  | · exfalso
      obtain ⟨a, ha, haO⟩ := hce
      have hac : ms.contains a = true := contains_iff_mem.mpr ha
      simp only [SEGMENT_OPTIONS, List.mem_cons, List.not_mem_nil, or_false] at haO
      rcases haO with h | h | h | h <;> rw [h] at hac <;> simp_all

/-! ### Claim theorems -/

/-- C1: for every combination of the three date inputs (each either unknown
or a known date) and a fixed today, `_calc_status_like_excel` is total and
returns exactly one of the five statuses, evaluated as an ordered
first-match-wins decision list: unknown signing date → "EM NEGOCIAÇÃO";
else renewal-start known and strictly after today → "EM VIGÊNCIA"; else
renewal-start known and strictly before today together with valid-until
known and strictly after today → "SOLICITAR RENOVAÇÃO"; else valid-until
known and strictly before today → "ATRASADO"; else "-". -/
theorem c1_status_decision_list :
    (∀ today d i v, _calc_status_like_excel today d i v ∈ STATUS_VALUES)
    ∧ (∀ today d i v, _to_datetime d = none →
        _calc_status_like_excel today d i v = "EM NEGOCIAÇÃO")
    ∧ (∀ today d i v dd ii, _to_datetime d = some dd → _to_datetime i = some ii →
        today.key < ii.key → _calc_status_like_excel today d i v = "EM VIGÊNCIA")
    ∧ (∀ today d i v dd ii vv, _to_datetime d = some dd → _to_datetime i = some ii →
        _to_datetime v = some vv → ii.key < today.key → today.key < vv.key →
        _calc_status_like_excel today d i v = "SOLICITAR RENOVAÇÃO")
    ∧ (∀ today d i v dd vv, _to_datetime d = some dd → _to_datetime v = some vv →
        (∀ ii, _to_datetime i = some ii → ¬ today.key < ii.key) →
        vv.key < today.key → _calc_status_like_excel today d i v = "ATRASADO")
    ∧ (∀ today d i v dd, _to_datetime d = some dd →
        (∀ ii, _to_datetime i = some ii → ¬ today.key < ii.key) →
        (∀ ii vv, _to_datetime i = some ii → _to_datetime v = some vv →
          ¬ (ii.key < today.key ∧ today.key < vv.key)) →
        (∀ vv, _to_datetime v = some vv → ¬ vv.key < today.key) →
        _calc_status_like_excel today d i v = "-") := by
  refine ⟨?_, ?_, ?_, ?_, ?_, ?_⟩
  · intro today d i v
    exact calcStatusCore_mem today (_to_datetime d) (_to_datetime i) (_to_datetime v)
  · intro today d i v h
    simp [_calc_status_like_excel, calcStatusCore, h]
  · intro today d i v dd ii hd hi hlt
    simp [_calc_status_like_excel, calcStatusCore, hd, hi, hlt]
  · intro today d i v dd ii vv hd hi hv h1 h2
    have h1' : ¬ today.key < ii.key := Nat.lt_asymm h1
    simp [_calc_status_like_excel, calcStatusCore, hd, hi, hv, h1, h2, h1']
  · intro today d i v dd vv hd hv hni hvlt
    have h3 : ¬ today.key < vv.key := Nat.lt_asymm hvlt
    cases hi : _to_datetime i with
    | none => simp [_calc_status_like_excel, calcStatusCore, hd, hv, hi, hvlt, h3]
    | some ii =>
      have h2 := hni ii hi
      simp [_calc_status_like_excel, calcStatusCore, hd, hv, hi, hvlt, h3, h2]
  · intro today d i v dd hd hr2 hr3 hr4
    cases hi : _to_datetime i with
    | none =>
      cases hv : _to_datetime v with
      | none => simp [_calc_status_like_excel, calcStatusCore, hd, hi, hv]
      | some vv =>
        simp [_calc_status_like_excel, calcStatusCore, hd, hi, hv, hr4 vv hv]
    | some ii =>
      have h2 := hr2 ii hi
      cases hv : _to_datetime v with
      | none => simp [_calc_status_like_excel, calcStatusCore, hd, hi, hv, h2]
      | some vv =>
        have h4 := hr4 vv hv
        have h3 := hr3 ii vv hi hv
        by_cases hA : ii.key < today.key
        · have hB : ¬ today.key < vv.key := fun hb => h3 ⟨hA, hb⟩
          simp [_calc_status_like_excel, calcStatusCore, hd, hi, hv, h2, h4, hA, hB]
        · simp [_calc_status_like_excel, calcStatusCore, hd, hi, hv, h2, h4, hA]

/-- Witness for C1: each rule of the decision list exercised at a concrete
input through the theorem itself. -/
theorem c1_status_decision_list_witness :
    _calc_status_like_excel ⟨2025, 7, 28⟩ Val.vNone (Val.vDate ⟨2030, 1, 1⟩)
        (Val.vDate ⟨2030, 1, 1⟩) = "EM NEGOCIAÇÃO"
    ∧ _calc_status_like_excel ⟨2025, 7, 28⟩ (Val.vDate ⟨2024, 1, 1⟩)
        (Val.vDate ⟨2030, 1, 1⟩) Val.vNone = "EM VIGÊNCIA"
    ∧ _calc_status_like_excel ⟨2025, 7, 28⟩ (Val.vDate ⟨2024, 1, 1⟩)
        (Val.vDate ⟨2025, 1, 1⟩) (Val.vDate ⟨2026, 1, 1⟩) = "SOLICITAR RENOVAÇÃO"
    ∧ _calc_status_like_excel ⟨2025, 7, 28⟩ (Val.vDate ⟨2024, 1, 1⟩)
        Val.vNone (Val.vDate ⟨2025, 1, 1⟩) = "ATRASADO"
    ∧ _calc_status_like_excel ⟨2025, 7, 28⟩ (Val.vDate ⟨2024, 1, 1⟩)
        Val.vNone Val.vNone = "-" :=
  ⟨c1_status_decision_list.2.1 _ _ _ _ rfl,
   c1_status_decision_list.2.2.1 _ _ _ _ ⟨2024, 1, 1⟩ ⟨2030, 1, 1⟩ rfl rfl (by decide),
   c1_status_decision_list.2.2.2.1 _ _ _ _ ⟨2024, 1, 1⟩ ⟨2025, 1, 1⟩ ⟨2026, 1, 1⟩
     rfl rfl rfl (by decide) (by decide),
   c1_status_decision_list.2.2.2.2.1 _ _ _ _ ⟨2024, 1, 1⟩ ⟨2025, 1, 1⟩ rfl rfl
     (fun ii h => by cases h) (by decide),
   c1_status_decision_list.2.2.2.2.2 _ _ _ _ ⟨2024, 1, 1⟩ rfl
     (fun ii h => by cases h) (fun ii vv h _ => by cases h)
     (fun vv h => by cases h)⟩

/-- C10: every date comparison in the status derivation is strict, so
boundary dates equal to today satisfy no rule: with a known signing date, a
renewal-start exactly equal to today and an unknown valid-until,
`_calc_status_like_excel` returns "-". -/
theorem c10_boundary_today_unknown (today : PDate) (d : Val) (dd : PDate)
    (h : _to_datetime d = some dd) :
    _calc_status_like_excel today d (Val.vDate today) Val.vNone = "-" := by
  have h2 : _to_datetime (Val.vDate today) = some today := rfl
  have h3 : _to_datetime Val.vNone = none := rfl
  simp [_calc_status_like_excel, calcStatusCore, h, h2, h3]

/-- Witness for C10 at a concrete signing date and today. -/
theorem c10_boundary_today_unknown_witness :
    _calc_status_like_excel ⟨2025, 7, 28⟩ (Val.vDate ⟨2024, 1, 1⟩)
        (Val.vDate ⟨2025, 7, 28⟩) Val.vNone = "-" :=
  c10_boundary_today_unknown ⟨2025, 7, 28⟩ (Val.vDate ⟨2024, 1, 1⟩) ⟨2024, 1, 1⟩ rfl

/-- C3, counterexample: the non-sentinel string "abc" parses under neither
interpretation, yet `_fmt_date` returns "abc" (the `_s`-normalized input),
not "-" as the claim states. -/
theorem c3_fmt_date_counterexample :
    pd_to_datetime true "abc" = none ∧ pd_to_datetime false "abc" = none
    ∧ _fmt_date (Val.vStr "abc") = "abc" ∧ _fmt_date (Val.vStr "abc") ≠ "-" := by
  refine ⟨by decide, by decide, by decide, by decide⟩

/-- C3 as amended: `_fmt_date` renders a native date or a successfully
parsed string as DD/MM/YYYY and maps null/blank/sentinel input to "-", but a
non-sentinel string that does not parse is returned as its `_s`
normalization (the trimmed string itself), not as "-"; the function is total
(it never raises). -/
theorem c3_fmt_date_amended :
    _fmt_date Val.vNone = "-"
    ∧ (∀ d, _fmt_date (Val.vDate d) = fmtDDMMYYYY d)
    ∧ (∀ s, pyStrip s = "" → _fmt_date (Val.vStr s) = "-")
    ∧ (∀ s, pyLower (pyStrip s) = "nan" ∨ pyLower (pyStrip s) = "nat"
          ∨ pyLower (pyStrip s) = "-" → _fmt_date (Val.vStr s) = "-")
    ∧ (∀ s d, pd_to_datetime false (pyStrip s) = some d →
        pyStrip s ≠ "" → pyLower (pyStrip s) ≠ "nan" → pyLower (pyStrip s) ≠ "nat" →
        pyLower (pyStrip s) ≠ "-" → _fmt_date (Val.vStr s) = fmtDDMMYYYY d)
    ∧ (∀ s, pd_to_datetime false (pyStrip s) = none →
        pyStrip s ≠ "" → pyLower (pyStrip s) ≠ "nan" → pyLower (pyStrip s) ≠ "nat" →
        pyLower (pyStrip s) ≠ "-" → _fmt_date (Val.vStr s) = _s (some s)) := by
  refine ⟨rfl, fun d => rfl, ?_, ?_, ?_, ?_⟩
  · intro s h
    simp [_fmt_date, h]
  · intro s h
    rcases h with h | h | h <;> simp [_fmt_date, h]
  · intro s d hp h1 h2 h3 h4
    simp [_fmt_date, hp, h1, h2, h3, h4]
  · intro s hp h1 h2 h3 h4
    simp [_fmt_date, hp, h1, h2, h3, h4]

/-- Witness for C3's amended theorem: the parsing, sentinel and fallthrough
branches exercised at concrete inputs through the theorem itself. -/
theorem c3_fmt_date_amended_witness :
    _fmt_date (Val.vStr " NaT ") = "-"
    ∧ _fmt_date (Val.vStr "28/07/2025") = "28/07/2025"
    ∧ _fmt_date (Val.vStr " hello ") = "hello" :=
  ⟨c3_fmt_date_amended.2.2.2.1 " NaT " (by decide),
   c3_fmt_date_amended.2.2.2.2.1 "28/07/2025" ⟨2025, 7, 28⟩ (by decide)
     (by decide) (by decide) (by decide) (by decide),
   c3_fmt_date_amended.2.2.2.2.2 " hello " (by decide) (by decide) (by decide)
     (by decide) (by decide)⟩

/-- C4: date parsing is deliberately asymmetric between the two paths — the
storage/compute parser `_to_datetime` reads text day-first while the display
path `_fmt_date` parses non-day-first (witnessed by the ambiguous string
"05/07/2025", read as 5 July by `_to_datetime` but displayed as 7 May), and
formatting the ISO-like string "2025-07-28 00:00:00" for display yields
exactly "28/07/2025". -/
theorem c4_dayfirst_asymmetry :
    _to_datetime (Val.vStr "05/07/2025") = some ⟨2025, 7, 5⟩
    ∧ pd_to_datetime true "05/07/2025" = some ⟨2025, 7, 5⟩
    ∧ pd_to_datetime false "05/07/2025" = some ⟨2025, 5, 7⟩
    ∧ _fmt_date (Val.vStr "05/07/2025") = "07/05/2025"
    ∧ _fmt_date (Val.vStr "2025-07-28 00:00:00") = "28/07/2025" := by
  refine ⟨by decide, by decide, by decide, by decide, by decide⟩

/-- C9: `_s` is total, maps null, whitespace-only input and case-insensitive
matches of "nan" and "nat" to the sentinel "-", and returns the trimmed
string for every other input. -/
theorem c9_s_normalizer :
    _s none = "-"
    ∧ (∀ s, pyStrip s = "" → _s (some s) = "-")
    ∧ (∀ s, pyLower (pyStrip s) = "nan" ∨ pyLower (pyStrip s) = "nat" →
        _s (some s) = "-")
    ∧ (∀ s, pyStrip s ≠ "" → pyLower (pyStrip s) ≠ "nan" →
        pyLower (pyStrip s) ≠ "nat" → _s (some s) = pyStrip s) := by
  refine ⟨rfl, ?_, ?_, ?_⟩
  · intro s h
    simp [_s, h]
  · intro s h
    rcases h with h | h <;> simp [_s, h]
  · intro s h1 h2 h3
    simp [_s, h1, h2, h3]

/-- Witness for C9: each branch exercised at a concrete input through the
theorem itself. -/
theorem c9_s_normalizer_witness :
    _s (some "   ") = "-" ∧ _s (some " NaN ") = "-" ∧ _s (some "  ok ") = "ok" :=
  ⟨c9_s_normalizer.2.1 "   " (by decide),
   c9_s_normalizer.2.2.1 " NaN " (Or.inl (by decide)),
   c9_s_normalizer.2.2.2 "  ok " (by decide) (by decide) (by decide)⟩

/-- C5: for every string x, one pass of segment canonicalization followed by
rendering to the comma-joined display string is a fixpoint of the
canonicalizer: `normalize_segments (segments_to_str (normalize_segments x))`
equals `normalize_segments x`. -/
theorem c5_segments_roundtrip_fixpoint (x : String) :
    normalize_segments (some (segments_to_str (normalize_segments (some x))))
      = normalize_segments (some x) :=
  normalize_roundtrip _ (normalize_segments_mem (some x))

/-- C6: `normalize_segments` maps null, blank and sentinel input to exactly
["Sem Segmento"]; otherwise it splits on commas, matches tokens case- and
accent-insensitively (so accent variants of the same segment deduplicate),
silently drops unmatched tokens, always returns a deduplicated list sorted
by the fixed declaration order of the known segments (membership in
`canonicalLists`, the nonempty order-preserving sublists of
`SEGMENT_OPTIONS`), and falls back to ["Sem Segmento"] when the filtered
result is empty. -/
theorem c6_normalize_segments_spec :
    normalize_segments none = ["Sem Segmento"]
    ∧ normalize_segments (some "") = ["Sem Segmento"]
    ∧ normalize_segments (some "   ") = ["Sem Segmento"]
    ∧ normalize_segments (some "-") = ["Sem Segmento"]
    ∧ normalize_segments (some "nan") = ["Sem Segmento"]
    ∧ (∀ x, normalize_segments x ∈ canonicalLists)
    ∧ normalize_segments (some "Fornecedor de Soluções, fornecedor de soluções")
        = ["Fornecedor de Soluções"]
    ∧ normalize_segments (some "foo, bar") = ["Sem Segmento"]
    ∧ normalize_segments (some "xyz, Sem Segmento, fornecedor de dados")
        = ["Fornecedor de Dados", "Sem Segmento"] :=
  ⟨by decide, by decide, by decide, by decide, by decide,
   normalize_segments_mem, by decide, by decide, by decide⟩

/-- C8 (modelled from the spec, §4.4): `classificationToCode` maps any value
whose first character is (case-insensitively) A, B or C directly to that
code, otherwise matches case-insensitively against three fixed phrase sets
in priority order A before B before C, and returns `none` (unrecognized) for
a value matching none; in particular "B" ↦ B,
"Não fornece, mas oferece solução" ↦ B and "xyz" is unrecognized. -/
theorem c8_classification_to_code :
    (∀ v rest, (pyLower (pyStrip v)).data = 'a' :: rest →
      classificationToCode v = some Code.A)
    ∧ (∀ v rest, (pyLower (pyStrip v)).data = 'b' :: rest →
      classificationToCode v = some Code.B)
    ∧ (∀ v rest, (pyLower (pyStrip v)).data = 'c' :: rest →
      classificationToCode v = some Code.C)
    ∧ classificationToCode "B" = some Code.B
    ∧ classificationToCode "Não fornece, mas oferece solução" = some Code.B
    ∧ classificationToCode "xyz" = none := by
  refine ⟨?_, ?_, ?_, by decide, by decide, by decide⟩
  · intro v rest h
    simp [classificationToCode, h]
  · intro v rest h
    simp [classificationToCode, h]
  · intro v rest h
    simp [classificationToCode, h]

/-- Witness for C8: the first-character rules exercised at concrete inputs
through the theorem itself. -/
theorem c8_classification_to_code_witness :
    classificationToCode " Aquisição de dados " = some Code.A
    ∧ classificationToCode "b?" = some Code.B
    ∧ classificationToCode "Cobertura" = some Code.C :=
  ⟨c8_classification_to_code.1 " Aquisição de dados "
      "quisição de dados".data (by decide),
   c8_classification_to_code.2.1 "b?" "?".data (by decide),
   c8_classification_to_code.2.2.1 "Cobertura" "obertura".data (by decide)⟩

/-- C2: on every record write path — spreadsheet import (`import_row`),
single-record creation (`insert_record`) and admin edit save (`edit_save`) —
the stored STATUS equals the status derivation applied to the record's three
stored date fields at save time, and the raw/typed status value never
influences the saved record (it is overwritten by the derived value). -/
theorem c2_status_always_derived :
    (∀ today r, (import_row today r).status
        = calcStatusCore today (import_row today r).data_ass
            (import_row today r).inicio_renov (import_row today r).vigencia)
    ∧ (∀ today r s, import_row today { r with status := some s } = import_row today r)
    ∧ (∀ today r, (insert_record today r).status
        = calcStatusCore today (insert_record today r).data_ass
            (insert_record today r).inicio_renov (insert_record today r).vigencia)
    ∧ (∀ today r s, insert_record today { r with status := some s }
        = insert_record today r)
    ∧ (∀ today f u, edit_save today f = some u →
        u.status = calcStatusCore today u.data_ass u.inicio_renov u.vigencia)
    ∧ (∀ today f s, edit_save today { f with status_typed := s } = edit_save today f) := by
  refine ⟨?_, ?_, ?_, ?_, ?_, ?_⟩
  · intro today r
    simp only [import_row, _calc_status_like_excel, to_datetime_optToVal]
    exact clean_status (calcStatusCore_mem _ _ _ _)
  · intro today r s
    rfl
  · intro today r
    simp only [insert_record, _calc_status_like_excel]
    rw [(fmt_date_reparse (_s r.data_ass)).1, (fmt_date_reparse (_s r.inicio_renov)).1,
      (fmt_date_reparse (_s r.vigencia)).1]
    exact clean_status (calcStatusCore_mem _ _ _ _)
  · intro today r s
    rfl
  · intro today f u h
    by_cases hms : f.segmentos_ms = []
    · simp [edit_save, hms] at h
    · simp only [edit_save, if_neg hms, Option.some.injEq] at h
      subst h
      simp only [_calc_status_like_excel]
      rw [(fmt_date_reparse f.data_ass).2, (fmt_date_reparse f.inicio_renov).2,
        (fmt_date_reparse f.vigencia).2]
  · intro today f s
    rfl

/-- Witness for C2: the edit-save conjunct applied at a concrete form whose
typed Status box reads "HACKED", showing the stored status is the derived
value of the stored dates. -/
theorem c2_status_always_derived_witness :
    edit_save ⟨2025, 7, 28⟩
        { status_typed := "HACKED", data_ass := "01/01/2020", inicio_renov := "-",
          vigencia := "-", segmentos_ms := ["Sem Segmento"] }
      = some { status := "-", data_ass := some ⟨2020, 1, 1⟩, inicio_renov := none,
               vigencia := none, segmento := "Sem Segmento" }
    ∧ ("-" : String) = calcStatusCore ⟨2025, 7, 28⟩ (some ⟨2020, 1, 1⟩) none none :=
  ⟨by decide,
   c2_status_always_derived.2.2.2.2.1 ⟨2025, 7, 28⟩
     { status_typed := "HACKED", data_ass := "01/01/2020", inicio_renov := "-",
       vigencia := "-", segmentos_ms := ["Sem Segmento"] }
     { status := "-", data_ass := some ⟨2020, 1, 1⟩, inicio_renov := none,
       vigencia := none, segmento := "Sem Segmento" }
     (by decide)⟩

set_option maxHeartbeats 2000000 in
/-- C7: on every path that persists a record, the stored SEGMENTO is a
comma-joined, deduplicated, declaration-ordered rendering of known segment
labels (membership in `canonicalStrs`) and is never the empty string; the
edit form refuses to save an empty segment selection (the multiselect's
options are `SEGMENT_OPTIONS`, so its value is a list of known labels). -/
theorem c7_segmento_canonical :
    (∀ today r, (import_row today r).segmento ∈ canonicalStrs
      ∧ (import_row today r).segmento ≠ "")
    ∧ (∀ today r, (insert_record today r).segmento ∈ canonicalStrs
      ∧ (insert_record today r).segmento ≠ "")
    ∧ (∀ today f, f.segmentos_ms = [] → edit_save today f = none)
    ∧ (∀ today f u, f.segmentos_ms ≠ [] →
        (∀ a ∈ f.segmentos_ms, a ∈ SEGMENT_OPTIONS) → edit_save today f = some u →
        u.segmento ∈ canonicalStrs ∧ u.segmento ≠ "") := by
  have hmem : ∀ (x : Option String),
      clean_non_date (some (segments_to_str (normalize_segments x))) ∈ canonicalStrs := by
    intro x
    have h1 : segments_to_str (normalize_segments x) ∈ canonicalStrs :=
      segments_to_str_mem_of_canonical (normalize_segments_mem x)
    rw [clean_canonical h1]
    exact h1
  have hne : ∀ {t : String}, t ∈ canonicalStrs → t ≠ "" := by
    intro t ht he
    rw [he] at ht
    exact empty_not_canonical ht
  refine ⟨?_, ?_, ?_, ?_⟩
  · intro today r
    have h := hmem r.segmento
    exact ⟨h, hne h⟩
  · intro today r
    have h := hmem (some (_s r.segmento))
    exact ⟨h, hne h⟩
  · intro today f h
    simp [edit_save, h]
  · intro today f u h1 h2 h
    simp only [edit_save, if_neg h1, Option.some.injEq] at h
    subst h
    have hc : segments_to_str f.segmentos_ms ∈ canonicalStrs :=
      segments_to_str_canonical h1 h2
    exact ⟨hc, hne hc⟩

/-- Witness for C7: the empty-selection refusal and the canonical stored
segment on an edit save, both through the theorem itself. -/
theorem c7_segmento_canonical_witness :
    edit_save ⟨2025, 7, 28⟩
        { status_typed := "-", data_ass := "-", inicio_renov := "-",
          vigencia := "-", segmentos_ms := [] } = none
    ∧ (("Fornecedor de Dados, Sem Segmento" : String) ∈ canonicalStrs
       ∧ ("Fornecedor de Dados, Sem Segmento" : String) ≠ "") :=
  ⟨c7_segmento_canonical.2.2.1 ⟨2025, 7, 28⟩
     { status_typed := "-", data_ass := "-", inicio_renov := "-",
       vigencia := "-", segmentos_ms := [] } rfl,
   c7_segmento_canonical.2.2.2 ⟨2025, 7, 28⟩
     { status_typed := "-", data_ass := "-", inicio_renov := "-",
       vigencia := "-", segmentos_ms := ["Sem Segmento", "Fornecedor de Dados"] }
     { status := "EM NEGOCIAÇÃO", data_ass := none, inicio_renov := none,
       vigencia := none, segmento := "Fornecedor de Dados, Sem Segmento" }
     (by decide) (by decide) (by decide)⟩
